import Mathlib

/-!
Shallow embedding of the El Pais opinion-scraper repository
(`analyzer.py`, `translator.py`, `scraper.py`, `browserstack_runner.py`)
and proofs of the specification claims about it.

External effects (Selenium driver calls, HTTP requests, the thread pool)
are modelled by explicit environment values describing the outcome of each
external call; the Python control flow acting on those outcomes is
transcribed directly.  Python exceptions are modelled with `Except`,
`None` with `Option`, and Python dicts extensionally as lookup functions.
-/

namespace ElPais

/-! ## Definitions: analyzer.py -/

/-- ASCII model of Python's `str.lower` applied per character
(only basic Latin letters matter downstream: every other character is
deleted by the `re.sub` step). -/
def pyLowerChar (c : Char) : Char :=
  if 'A' ≤ c ∧ c ≤ 'Z' then Char.ofNat (c.toNat + 32) else c

/-- The ASCII whitespace class of Python's `\s` / `str.split()`. -/
def isPySpace (c : Char) : Bool :=
  c == ' ' || c == '\t' || c == '\n' || c == '\r' ||
  c == Char.ofNat 11 || c == Char.ofNat 12

/-- A character kept by `re.sub(r"[^a-zA-Z\s]", "", ·)`:
a basic Latin letter or whitespace. -/
def keepChar (c : Char) : Bool :=
  ('a' ≤ c && c ≤ 'z') || ('A' ≤ c && c ≤ 'Z') || isPySpace c

/-- Python's `" ".join(headers)`. -/
def joinWithSpace : List String → String
  | [] => ""
  | [s] => s
  | s :: rest => s ++ " " ++ joinWithSpace rest

/-- Python's `str.split()` (split on whitespace runs, dropping empty
tokens), written with an explicit accumulator for the token being built. -/
def splitWsAux : List Char → List Char → List (List Char)
  | [], acc => if acc = [] then [] else [acc.reverse]
  | c :: cs, acc =>
    if isPySpace c then
      if acc = [] then splitWsAux cs [] else acc.reverse :: splitWsAux cs []
    else splitWsAux cs (c :: acc)

def splitWs (l : List Char) : List (List Char) := splitWsAux l []

/-- The `analyzer.py` stop-word set, transcribed verbatim (as a list; Python
uses a set, membership is all that matters). -/
def STOP_WORDS : List String :=
  ["the", "a", "an", "and", "or", "but", "in", "on", "at", "to", "for",
   "of", "with", "by", "from", "is", "it", "its", "as", "are", "was",
   "were", "be", "been", "has", "have", "had", "do", "does", "did",
   "will", "would", "could", "should", "may", "might", "shall", "can",
   "this", "that", "these", "those", "not", "no", "nor", "so", "if",
   "than", "too", "very", "just", "about", "up", "out", "into", "over",
   "after", "before", "between", "under", "above", "such", "each",
   "which", "who", "whom", "what", "when", "where", "why", "how",
   "all", "both", "few", "more", "most", "other", "some", "any",
   "he", "she", "they", "we", "you", "i", "me", "him", "her", "us",
   "them", "my", "your", "his", "our", "their"]

/-- Line `all_text = " ".join(headers).lower()` (as characters). -/
def all_text (headers : List String) : List Char :=
  (joinWithSpace headers).data.map pyLowerChar

/-- Line `clean_text = re.sub(r"[^a-zA-Z\s]", "", all_text)`. -/
def clean_text (headers : List String) : List Char :=
  (all_text headers).filter keepChar

/-- Line `words = clean_text.split()`. -/
def words (headers : List String) : List String :=
  (splitWs (clean_text headers)).map List.asString

/-- Line `meaningful_words = [w for w in words if w not in STOP_WORDS and len(w) > 1]`. -/
def meaningful_words (headers : List String) : List String :=
  (words headers).filter fun w => !(STOP_WORDS.contains w) && decide (1 < w.length)

/-- Value `Counter(meaningful_words)[w]`. -/
def wordCount (headers : List String) (w : String) : Nat :=
  (meaningful_words headers).count w

/-- Function `find_repeated_words(headers)`: the dict
`{word: cnt for word, cnt in counts.items() if cnt > 2}`, modelled
extensionally as its lookup function (`none` = key absent). -/
def find_repeated_words (headers : List String) : String → Option Nat :=
  fun w => if 2 < wordCount headers w then some (wordCount headers w) else none

/-- The translated example titles from the spec's boundary-case test. -/
def exampleTitles : List String := ["The cat runs", "The cat eats", "The dog runs"]

/-! ## Definitions: translator.py -/

/-- Outcome of one `requests.post` translation call:
`success trans` is an HTTP 2xx response whose parsed JSON has `trans`
(`none` when the field is missing, so `.get("trans", title)` falls back);
`httpError` is `raise_for_status` raising `HTTPError`; `failure` is any
other exception (network error, timeout, bad JSON). -/
inductive TransResult where
  | success (trans : Option String)
  | httpError (msg : String)
  | failure (msg : String)
deriving DecidableEq

/-- The per-title body of the loop in `translate_titles`: the string
appended to `translated` for input `title` given the call's outcome. -/
def resolveTranslation (title : String) : TransResult → String
  | .success (some tr) => tr
  | .success none => title
  | .httpError _ => title
  | .failure _ => title

/-- The `for i, title in enumerate(titles)` loop, with `i` made explicit;
`env i` is the outcome of the i-th network call. -/
def translateLoop (env : Nat → TransResult) : Nat → List String → List String
  | _, [] => []
  | i, title :: rest => resolveTranslation title (env i) :: translateLoop env (i + 1) rest

/-- Function `translate_titles(titles)`: returns the input list unchanged when
`RAPIDAPI_KEY` is empty, otherwise translates title by title. -/
def translate_titles (apiKey : String) (env : Nat → TransResult) (titles : List String) :
    List String :=
  if apiKey = "" then titles else translateLoop env 0 titles

/-! ## Definitions: scraper.py -/

/-- Python's `str.strip()` (ASCII whitespace model). -/
def pyStrip (s : String) : String :=
  (((s.data.dropWhile isPySpace).reverse.dropWhile isPySpace).reverse).asString

/-- Test `p.data.isPrefixOf q.data` at every suffix: Python's
`needle in haystack` substring test. -/
def hasSubstr (needle : String) : List Char → Bool
  | [] => needle.data.isEmpty
  | c :: rest => needle.data.isPrefixOf (c :: rest) || hasSubstr needle rest

/-- Python's `p.startswith(q)`. -/
def pyStartsWith (p s : String) : Bool := p.data.isPrefixOf s.data

/-- Model of `IMAGE_DIR` (the source uses the absolute path of the module
directory plus `images`; only the directory/filename shape matters here). -/
def IMAGE_DIR : String := "images"

/-- Function `check_language(driver)`: reads the `lang` attribute of the `<html>`
element and tests `lang.startswith("es")`.  The element lookup is not
guarded by any `try`, so a driver failure there propagates (`.error`).
`lang?` carries (`.ok a`) the attribute value (`none` when the attribute
is absent, handled by `or ""`). -/
def check_language (lang? : Except String (Option String)) : Except String Bool :=
  match lang? with
  | .error e => .error e
  | .ok a => .ok (pyStartsWith "es" (a.getD ""))

/-- One element examined by a link-collection loop: `found href` is an
element whose `get_attribute("href")` returned `href` (`none` = attribute
absent); `readErr` is an exception while reading this element. -/
inductive ElemRead where
  | found (href : Option String)
  | readErr
deriving DecidableEq

/-- Environment for `get_article_links`: outcomes of the driver calls it
performs.  `primary`/`fallBack` are the two `find_elements` scans
(`none` = the scan itself raised, which the surrounding `try` swallows). -/
structure LinksEnv where
  navigate : Except String Unit
  htmlLang : Except String (Option String)
  primary : Option (List ElemRead)
  fallBack : Option (List ElemRead)

/-- The shared body of both link-collection loops: append `href` when it
is truthy and not yet collected, stop once `num_articles` links are held.
`stopOnErr = false` models the primary loop (inner `try/except: continue`);
`stopOnErr = true` models the fallback loop, where an element exception
aborts the remaining iterations (caught by the outer `try`). -/
def linkLoop (num : Nat) (stopOnErr : Bool) : List ElemRead → List String → List String
  | [], links => links
  | .readErr :: rest, links =>
    if stopOnErr then links else linkLoop num stopOnErr rest links
  | .found none :: rest, links => linkLoop num stopOnErr rest links
  | .found (some h) :: rest, links =>
    if h ≠ "" ∧ h ∉ links then
      if num ≤ (links ++ [h]).length then links ++ [h]
      else linkLoop num stopOnErr rest (links ++ [h])
    else linkLoop num stopOnErr rest links

/-- Links collected by the primary `article h2 a` scan. -/
def primaryLinks (env : LinksEnv) (num : Nat) : List String :=
  match env.primary with
  | none => []
  | some items => linkLoop num false items []

/-- Links after the conditional fallback `h2 a[href*='/opinion/']` scan. -/
def combinedLinks (env : LinksEnv) (num : Nat) : List String :=
  let links := primaryLinks env num
  if links.length < num then
    match env.fallBack with
    | none => links
    | some items => linkLoop num true items links
  else links

/-- Function `get_article_links(driver, num_articles)`: navigate, accept cookies
(fully swallowed, not modelled), check the language, run the two
collection scans, and return `links[:num_articles]`.  Failures of the
navigation or of the language check's element lookup propagate. -/
def get_article_links (env : LinksEnv) (num : Nat) : Except String (List String) :=
  match env.navigate with
  | .error e => .error e
  | .ok _ =>
    match check_language env.htmlLang with
    | .error e => .error e
    | .ok _ => .ok ((combinedLinks env num).take num)

/-- Outcome of the `requests.get` image download (`download_image`):
`fail` is any exception caught by its `try` (network, `raise_for_status`,
file I/O); `success ct` is a completed download whose response had
`Content-Type` header `ct` (`none` = header absent, `.get` defaults it). -/
inductive DLOutcome where
  | fail (msg : String)
  | success (contentType : Option String)
deriving DecidableEq

/-- Function `download_image(img_url, idx)`: first calls
`ensure_image_dir()` (`os.makedirs(IMAGE_DIR, exist_ok=True)`), which runs
*outside* the `try` block, so a directory-creation I/O failure (`mkdir`)
propagates out of the function; every failure inside the `try` (network,
`raise_for_status`, streaming/file I/O — the `dl` outcome) is caught and
returns `None`; on success infers the extension from the content type and
returns the saved path `IMAGE_DIR/article_{idx+1}_cover.{ext}`. -/
def download_image (mkdir : Except String Unit) (dl : DLOutcome) (idx : Nat) :
    Except String (Option String) :=
  match mkdir with
  | .error e => .error e
  | .ok _ =>
    match dl with
    | .fail _ => .ok none
    | .success ct =>
      let ctype := ct.getD ""
      let ext :=
        if hasSubstr "png" ctype.data then "png"
        else if hasSubstr "webp" ctype.data then "webp"
        else "jpg"
      .ok (some (IMAGE_DIR ++ "/article_" ++ toString (idx + 1) ++ "_cover." ++ ext))

/-- The three title selector lookups of `scrape_single_article`:
each field is `some text` when that selector located an element (with
`.text` equal to `text`), `none` when the lookup raised
(element absent / wait timed out). -/
structure TitleSelectors where
  headerH1 : Option String
  classH1 : Option String
  anyH1 : Option String
deriving DecidableEq

/-- Environment for `scrape_single_article` on one article page. -/
structure ArticlePage where
  nav : Except String Unit
  titleSel : TitleSelectors
  paraPrimary : Option (List String)
  paraFallback : Option (List String)
  imgSrc : Option (Option String)
  mkdir : Except String Unit
  download : DLOutcome

/-- The nested `try/except` title ladder of `scrape_single_article`:
`article header h1`, then `h1.a_t`, then bare `h1`; whichever lookup
first returns an element wins (its stripped text is used, even when
empty); if all three raise, the sentinel is assigned. -/
def extract_title (sel : TitleSelectors) : String :=
  match sel.headerH1 with
  | some t => pyStrip t
  | none =>
    match sel.classH1 with
    | some t => pyStrip t
    | none =>
      match sel.anyH1 with
      | some t => pyStrip t
      | none => "(could not extract title)"

/-- The body-extraction block: specific content selectors, falling back
to `article p` when they match nothing; stripped non-empty paragraph
texts joined with newlines; sentinel if the block raised
(`paraPrimary`/`paraFallback` = `none`). -/
def extract_content (p : ArticlePage) : String :=
  let ps? :=
    match p.paraPrimary with
    | none => none
    | some ps => if ps.isEmpty then p.paraFallback else some ps
  match ps? with
  | none => "(could not extract content)"
  | some ps =>
    String.intercalate "\n" ((ps.map pyStrip).filter fun s => s != "")

/-- The cover-image block: element lookup failure or a falsy `src`
leaves `image_path = None`; otherwise `download_image` is called inside
the block's `try`, whose `except` sets `image_path = None` — so even the
directory-creation error that propagates out of `download_image` is
caught here. -/
def extract_image (p : ArticlePage) (idx : Nat) : Option String :=
  match p.imgSrc with
  | none => none
  | some none => none
  | some (some u) =>
    if u = "" then none
    else
      match download_image p.mkdir p.download idx with
      | .error _ => none
      | .ok r => r

/-- The `data` dict produced per article. -/
structure ArticleRecord where
  url : String
  title : String
  content : String
  image_path : Option String
deriving DecidableEq

/-- Function `scrape_single_article(driver, url, idx)`: `driver.get(url)` is not
guarded, so a navigation failure propagates; every extraction step after
it degrades gracefully and a record is always produced. -/
def scrape_single_article (p : ArticlePage) (url : String) (idx : Nat) :
    Except String ArticleRecord :=
  match p.nav with
  | .error e => .error e
  | .ok _ =>
    .ok { url := url
          title := extract_title p.titleSel
          content := extract_content p
          image_path := extract_image p idx }

/-- Environment for `scrape_articles`: link-phase outcomes plus, for the
i-th collected URL, the outcomes on that article's page. -/
structure ScrapeEnv where
  links : LinksEnv
  page : Nat → String → ArticlePage

/-- Function `scrape_articles(driver, count)`. -/
def scrape_articles (env : ScrapeEnv) (count : Nat) : Except String (List ArticleRecord) := do
  let urls ← get_article_links env.links count
  urls.enum.mapM fun iu => scrape_single_article (env.page iu.1 iu.2) iu.2 iu.1

/-! ## Definitions: browserstack_runner.py -/

/-- The `bstack:options` dict of one entry of `BROWSERS`
(fields absent from a given entry are `none`). -/
structure BStackOpts where
  os : Option String
  osVersion : Option String
  browserName : Option String
  browserVersion : Option String
  deviceName : Option String
  sessionName : Option String
  buildName : Option String
deriving DecidableEq

/-- One entry of the `BROWSERS` configuration list. -/
structure BrowserConfig where
  name : String
  is_mobile : Bool
  opts : BStackOpts
deriving DecidableEq

def emptyOpts : BStackOpts :=
  { os := none, osVersion := none, browserName := none, browserVersion := none,
    deviceName := none, sessionName := none, buildName := none }

/-- The five configured targets, transcribed from `BROWSERS`. -/
def BROWSERS : List BrowserConfig :=
  [ { name := "Chrome on Windows 11"
      is_mobile := false
      opts := { emptyOpts with
                os := some "Windows", osVersion := some "11",
                browserName := some "Chrome", browserVersion := some "latest",
                sessionName := some "ElPais_Chrome_Win11",
                buildName := some "ElPais Opinion Scraper" } }
  , { name := "Safari on macOS Ventura"
      is_mobile := false
      opts := { emptyOpts with
                os := some "OS X", osVersion := some "Ventura",
                browserName := some "Safari", browserVersion := some "latest",
                sessionName := some "ElPais_Safari_macOS",
                buildName := some "ElPais Opinion Scraper" } }
  , { name := "Firefox on Windows 10"
      is_mobile := false
      opts := { emptyOpts with
                os := some "Windows", osVersion := some "10",
                browserName := some "Firefox", browserVersion := some "latest",
                sessionName := some "ElPais_Firefox_Win10",
                buildName := some "ElPais Opinion Scraper" } }
  , { name := "Samsung Galaxy S23 (Chrome)"
      is_mobile := true
      opts := { emptyOpts with
                deviceName := some "Samsung Galaxy S23", osVersion := some "13.0",
                browserName := some "Chrome",
                sessionName := some "ElPais_Chrome_GalaxyS23",
                buildName := some "ElPais Opinion Scraper" } }
  , { name := "iPhone 15 (Safari)"
      is_mobile := true
      opts := { emptyOpts with
                deviceName := some "iPhone 15", osVersion := some "17",
                browserName := some "Safari",
                sessionName := some "ElPais_Safari_iPhone15",
                buildName := some "ElPais Opinion Scraper" } }
  ]

/-- The `bstack_caps` capability payload built by `create_driver`,
as an ordered field-name/value list.  The mobile branch indexes
`opts["deviceName"]` / `opts["osVersion"]` directly, so a missing field
raises (`none`); the desktop branch uses `.get` with defaults. -/
def bstack_caps (user key : String) (cfg : BrowserConfig) : Option (List (String × String)) :=
  let base := [("userName", user), ("accessKey", key),
               ("sessionName", cfg.opts.sessionName.getD ""),
               ("buildName", cfg.opts.buildName.getD "")]
  if cfg.is_mobile then
    match cfg.opts.deviceName, cfg.opts.osVersion with
    | some d, some v => some (base ++ [("deviceName", d), ("osVersion", v)])
    | _, _ => none
  else
    some (base ++ [("os", cfg.opts.os.getD ""),
                   ("osVersion", cfg.opts.osVersion.getD ""),
                   ("browserVersion", cfg.opts.browserVersion.getD "latest")])

/-- The dict returned by `run_single_browser` / collected by
`run_all_browsers`. -/
structure RunResult where
  browser : String
  status : String
  reason : String
deriving DecidableEq

/-- Observable resource/effect trace of one `run_single_browser` call. -/
structure RunTrace where
  quitCalls : Nat
  notifyAttempts : Nat
  translated : Bool
  analyzed : Bool
deriving DecidableEq

/-- Environment for one `run_single_browser` call. -/
structure RunEnv where
  create : Except String Unit
  scrape : ScrapeEnv
  apiKey : String
  trans : Nat → TransResult
  notifyFails : Bool

/-- Function `run_single_browser(browser_config)`: create the driver, scrape up to
5 articles, translate/analyze only when at least one article came back,
then in the `finally` block attempt the BrowserStack status notification
(its failure is swallowed by `except: pass`) and quit the driver.
Returns the result dict together with the effect trace. -/
def run_single_browser (cfg : BrowserConfig) (env : RunEnv) : RunResult × RunTrace :=
  match env.create with
  | .error e =>
    ({ browser := cfg.name, status := "failed", reason := e },
     { quitCalls := 0, notifyAttempts := 0, translated := false, analyzed := false })
  | .ok _ =>
    let step : String × String × Bool :=
      match scrape_articles env.scrape 5 with
      | .error e => ("failed", e, false)
      | .ok articles =>
        if articles.isEmpty then
          ("failed", "Could not scrape any articles", false)
        else
          let titlesSpanish := articles.map (·.title)
          let titlesEnglish := translate_titles env.apiKey env.trans titlesSpanish
          let _repeated := find_repeated_words titlesEnglish
          ("passed", "Scraped " ++ toString articles.length ++ " articles successfully", true)
    let notifyOutcome : Except String Unit :=
      if env.notifyFails then .error "notify raised" else .ok ()
    let trace : RunTrace :=
      match notifyOutcome with
      | .error _ =>
        { quitCalls := 1, notifyAttempts := 1, translated := step.2.2, analyzed := step.2.2 }
      | .ok _ =>
        { quitCalls := 1, notifyAttempts := 1, translated := step.2.2, analyzed := step.2.2 }
    ({ browser := cfg.name, status := step.1, reason := step.2.1 }, trace)

/-- The name attached to worker `i` by `future_to_name`. -/
def browserNameAt (i : Nat) : String := (BROWSERS.map (·.name)).getD i ""

/-- The body of the `as_completed` collection loop: `future.result()`
either yields the worker's `RunResult` or raises, in which case an
`error` result is synthesized for that target. -/
def collectResult (outcome : Nat → Except String RunResult) (i : Nat) : RunResult :=
  match outcome i with
  | .ok r => r
  | .error e => { browser := browserNameAt i, status := "error", reason := e }

/-- Function `run_all_browsers()`: one worker per `BROWSERS` entry; `outcome i` is
what `future.result()` does for worker `i`; `order` is the completion
order in which `as_completed` yields the futures (each exactly once, so
it is a permutation of the worker indices). -/
def run_all_browsers (outcome : Nat → Except String RunResult) (order : List Nat) :
    List RunResult :=
  order.map (collectResult outcome)

/-! ## Theorems: tokenizer structure -/

theorem splitWsAux_append_space (ys : List Char) :
    ∀ (xs : List Char) (acc : List Char),
      splitWsAux (xs ++ ' ' :: ys) acc = splitWsAux xs acc ++ splitWsAux ys [] := by
  intro xs
  induction xs with
  | nil =>
    intro acc
    by_cases h : acc = [] <;> simp [splitWsAux, isPySpace, h]
  | cons c cs ih =>
    intro acc
    by_cases hsp : isPySpace c
    · by_cases h : acc = [] <;> simp [splitWsAux, hsp, h, ih]
    · simp [splitWsAux, hsp, ih]

theorem clean_append (a b : List Char) :
    ((a ++ b).map pyLowerChar).filter keepChar =
      ((a.map pyLowerChar).filter keepChar) ++ ((b.map pyLowerChar).filter keepChar) := by
  simp [List.map_append, List.filter_append]

/-- The whole analyzer front end distributes over the list of headers:
the meaningful words of a list of headers are the concatenation of the
meaningful words of each header taken alone. -/
theorem meaningful_words_eq_flatMap (headers : List String) :
    meaningful_words headers = headers.flatMap (fun h => meaningful_words [h]) := by
  induction headers with
  | nil => rfl
  | cons h t ih =>
    cases t with
    | nil => simp [List.flatMap]
    | cons h2 t2 =>
      have hjoin : joinWithSpace (h :: h2 :: t2) = h ++ " " ++ joinWithSpace (h2 :: t2) := rfl
      have hclean : clean_text (h :: h2 :: t2) =
          clean_text [h] ++ ' ' :: clean_text (h2 :: t2) := by
        have hd : (" " : String).data = [' '] := rfl
        have hsp : (([' '].map pyLowerChar).filter keepChar) = [' '] := by decide
        have hlow : pyLowerChar ' ' = ' ' := by decide
        have hkeep : keepChar ' ' = true := by decide
        simp only [clean_text, all_text, hjoin, joinWithSpace, String.data_append,
          List.map_append, List.filter_append, List.append_assoc, hd, hsp,
          List.singleton_append, List.map_cons, List.filter_cons, hlow, hkeep,
          if_true]
      have hwords : words (h :: h2 :: t2) = words [h] ++ words (h2 :: t2) := by
        simp only [words, hclean, splitWs, splitWsAux_append_space, List.map_append]
      have hmean : meaningful_words (h :: h2 :: t2) =
          meaningful_words [h] ++ meaningful_words (h2 :: t2) := by
        simp only [meaningful_words, hwords, List.filter_append]
      rw [hmean, ih]
      rfl

/-- Word counts are invariant under permutation of the header list. -/
theorem wordCount_perm {l₁ l₂ : List String} (h : l₁.Perm l₂) (w : String) :
    wordCount l₁ w = wordCount l₂ w := by
  unfold wordCount
  rw [meaningful_words_eq_flatMap l₁, meaningful_words_eq_flatMap l₂]
  exact (h.flatMap_right (fun h => meaningful_words [h])).count_eq w

/-! ## Theorems: claims C2 and C9 -/

/-- C2: a word `w` is a key of `find_repeated_words headers` iff its
count among the filtered tokens (lowercased joined headers, non-Latin
characters deleted, whitespace-split, stop-words and one-character tokens
discarded) is strictly greater than 2, and the stored value is that
count; on the translated example titles the result is the empty map. -/
theorem c2_repeated_words_spec (headers : List String) (w : String) :
    ((find_repeated_words headers w).isSome ↔ 2 < wordCount headers w) ∧
    (∀ c, find_repeated_words headers w = some c → c = wordCount headers w) ∧
    find_repeated_words exampleTitles w = none := by
  refine ⟨?_, ?_, ?_⟩
  · unfold find_repeated_words
    split <;> simp_all
  · intro c hc
    unfold find_repeated_words at hc
    split at hc <;> simp_all
  · have key : ∀ v ∈ meaningful_words exampleTitles,
        (meaningful_words exampleTitles).count v ≤ 2 := by decide
    have hle : wordCount exampleTitles w ≤ 2 := by
      by_cases hw : w ∈ meaningful_words exampleTitles
      · exact key w hw
      · simp [wordCount, List.count_eq_zero.mpr hw]
    unfold find_repeated_words
    rw [if_neg (by omega)]

theorem c2_repeated_words_spec_witness :
    (find_repeated_words ["dog dog dog run"] "dog").isSome ∧
      3 = wordCount ["dog dog dog run"] "dog" ∧
      find_repeated_words exampleTitles "cat" = none :=
  ⟨(c2_repeated_words_spec ["dog dog dog run"] "dog").1.mpr (by decide),
   (c2_repeated_words_spec ["dog dog dog run"] "dog").2.1 3 (by decide),
   (c2_repeated_words_spec ["dog dog dog run"] "cat").2.2⟩

/-- C9: `find_repeated_words` is order-insensitive — permuting the list
of input headers leaves the resulting word-frequency map unchanged. -/
theorem c9_order_insensitive {l₁ l₂ : List String} (h : l₁.Perm l₂) :
    find_repeated_words l₁ = find_repeated_words l₂ :=
  funext fun w => by unfold find_repeated_words; rw [wordCount_perm h w]

theorem c9_order_insensitive_witness :
    find_repeated_words ["cat runs", "cat cat runs runs"] =
      find_repeated_words ["cat cat runs runs", "cat runs"] :=
  c9_order_insensitive (List.Perm.swap _ _ _)

/-! ## Theorems: translator (claim C10) -/

theorem translateLoop_length (env : Nat → TransResult) :
    ∀ (l : List String) (i : Nat), (translateLoop env i l).length = l.length := by
  intro l
  induction l with
  | nil => intro i; rfl
  | cons t rest ih => intro i; simp [translateLoop, ih]

theorem translateLoop_getElem? (env : Nat → TransResult) :
    ∀ (l : List String) (i j : Nat),
      (translateLoop env j l)[i]? = (l[i]?).map fun t => resolveTranslation t (env (j + i)) := by
  intro l
  induction l with
  | nil => intro i j; simp [translateLoop]
  | cons t rest ih =>
    intro i j
    cases i with
    | zero => simp [translateLoop]
    | succ i =>
      have := ih i (j + 1)
      simp only [translateLoop, List.getElem?_cons_succ, this]
      have harith : j + 1 + i = j + (i + 1) := by omega
      rw [harith]

/-- C10: `translate_titles` returns a list of exactly the input length and
order; each position holds the translation when its API call returned a
`trans` field, and the original title on any failure (HTTP error, network
error, missing `trans` field); with the API key unset the input list is
returned as-is. -/
theorem c10_translate_titles_spec (apiKey : String) (env : Nat → TransResult)
    (titles : List String) :
    translate_titles "" env titles = titles ∧
    (translate_titles apiKey env titles).length = titles.length ∧
    (apiKey ≠ "" → ∀ i, i < titles.length →
      (∀ tr, env i = .success (some tr) →
        (translate_titles apiKey env titles)[i]? = some tr) ∧
      ((∀ tr, env i ≠ .success (some tr)) →
        (translate_titles apiKey env titles)[i]? = titles[i]?)) := by
  refine ⟨by simp [translate_titles], ?_, ?_⟩
  · unfold translate_titles
    split
    · rfl
    · exact translateLoop_length env titles 0
  · intro hk i hi
    unfold translate_titles
    rw [if_neg hk]
    rw [translateLoop_getElem? env titles i 0]
    simp only [Nat.zero_add]
    constructor
    · intro tr htr
      rw [List.getElem?_eq_getElem hi]
      simp [resolveTranslation, htr]
    · intro hfail
      rw [List.getElem?_eq_getElem hi]
      cases henv : env i with
      | success o =>
        cases o with
        | none => simp [resolveTranslation, henv]
        | some tr => exact absurd henv (hfail tr)
      | httpError m => simp [resolveTranslation, henv]
      | failure m => simp [resolveTranslation, henv]

/-- Environment used by the C10 witness: the first call succeeds, the
second hits an HTTP error. -/
def c10Env : Nat → TransResult := fun i =>
  if i = 0 then .success (some "hello") else .httpError "429 Too Many Requests"

theorem c10_translate_titles_spec_witness :
    (translate_titles "key" c10Env ["hola", "adios"])[0]? = some "hello" ∧
    (translate_titles "key" c10Env ["hola", "adios"])[1]? =
      (["hola", "adios"] : List String)[1]? ∧
    (translate_titles "key" c10Env ["hola", "adios"]).length = 2 := by
  have h := c10_translate_titles_spec "key" c10Env ["hola", "adios"]
  refine ⟨(h.2.2 (by decide) 0 (by decide)).1 "hello" rfl,
          (h.2.2 (by decide) 1 (by decide)).2 ?_, h.2.1⟩
  intro tr htr
  simp [c10Env] at htr

/-! ## Theorems: orchestrator (claim C1) -/

/-- C1: `run_all_browsers` returns exactly one `RunResult` per configured
target (the completion order is a permutation of the worker indices), and
a worker whose `future.result()` raises is converted into an `error`
result for that target instead of being dropped or propagated. -/
theorem c1_orchestrator_spec (outcome : Nat → Except String RunResult) (order : List Nat)
    (h : order.Perm (List.range BROWSERS.length)) :
    (run_all_browsers outcome order).length = BROWSERS.length ∧
    ∀ i e, i ∈ order → outcome i = .error e →
      ({ browser := browserNameAt i, status := "error", reason := e } : RunResult) ∈
        run_all_browsers outcome order := by
  constructor
  · simp [run_all_browsers, h.length_eq]
  · intro i e hi he
    have hcoll : collectResult outcome i =
        { browser := browserNameAt i, status := "error", reason := e } := by
      simp [collectResult, he]
    exact hcoll ▸ List.mem_map_of_mem _ hi

/-- Worker outcomes used by the C1 witness: worker 2's `future.result()`
raises, the others return normally. -/
def c1Outcome : Nat → Except String RunResult := fun i =>
  if i = 2 then .error "WebDriverException: quit failed"
  else .ok { browser := browserNameAt i, status := "passed", reason := "ok" }

theorem c1_orchestrator_spec_witness :
    (run_all_browsers c1Outcome [4, 2, 0, 1, 3]).length = BROWSERS.length ∧
    ({ browser := browserNameAt 2, status := "error",
       reason := "WebDriverException: quit failed" } : RunResult) ∈
      run_all_browsers c1Outcome [4, 2, 0, 1, 3] := by
  have h := c1_orchestrator_spec c1Outcome [4, 2, 0, 1, 3] (by decide)
  exact ⟨h.1, h.2 2 _ (by decide) rfl⟩

/-! ## Theorems: session factory (claim C8) -/

/-- C8: the capability payload built by `create_driver` branches on
`is_mobile` and never mixes category fields: a mobile payload contains
neither `browserVersion` nor `os`/`platform`, and a desktop payload never
contains `deviceName`. -/
theorem c8_capability_payload (user key : String) (cfg : BrowserConfig)
    (caps : List (String × String)) (h : bstack_caps user key cfg = some caps) :
    (cfg.is_mobile = true →
      "browserVersion" ∉ caps.map Prod.fst ∧ "os" ∉ caps.map Prod.fst ∧
        "platform" ∉ caps.map Prod.fst) ∧
    (cfg.is_mobile = false → "deviceName" ∉ caps.map Prod.fst) := by
  unfold bstack_caps at h
  by_cases hm : cfg.is_mobile
  · rw [if_pos hm] at h
    refine ⟨fun _ => ?_, fun hf => by rw [hm] at hf; cases hf⟩
    rcases hdv : cfg.opts.deviceName with _ | d <;> rw [hdv] at h
    · simp at h
    · rcases hov : cfg.opts.osVersion with _ | v <;> rw [hov] at h
      · simp at h
      · simp only [Option.some.injEq] at h
        subst h
        simp only [List.map_append, List.map_cons, List.map_nil]
        decide
  · rw [if_neg hm] at h
    refine ⟨fun ht => by simp [ht] at hm, fun _ => ?_⟩
    simp only [Option.some.injEq] at h
    subst h
    simp only [List.map_append, List.map_cons, List.map_nil]
    decide

theorem c8_capability_payload_witness :
    "browserVersion" ∉
        ((bstack_caps "u" "k" (BROWSERS.getD 3 (BrowserConfig.mk "" false emptyOpts))).getD
          []).map Prod.fst ∧
    "deviceName" ∉
        ((bstack_caps "u" "k" (BROWSERS.getD 0 (BrowserConfig.mk "" false emptyOpts))).getD
          []).map Prod.fst := by
  have hm := c8_capability_payload "u" "k" (BROWSERS.getD 3 (BrowserConfig.mk "" false emptyOpts))
    ((bstack_caps "u" "k" (BROWSERS.getD 3 (BrowserConfig.mk "" false emptyOpts))).getD []) rfl
  have hd := c8_capability_payload "u" "k" (BROWSERS.getD 0 (BrowserConfig.mk "" false emptyOpts))
    ((bstack_caps "u" "k" (BROWSERS.getD 0 (BrowserConfig.mk "" false emptyOpts))).getD []) rfl
  exact ⟨(hm.1 rfl).1, hd.2 rfl⟩

/-! ## Theorems: title extraction (claim C3) -/

/-- C3 counterexample: when the most-specific selector locates a heading
whose text is only whitespace, the code uses its stripped (empty) text
and never falls through to the later selectors — so the produced title is
the empty string although a later strategy had non-empty text, refuting
both "first strategy to yield non-empty text wins" and "the title is
never empty". -/
theorem c3_counterexample :
    extract_title { headerH1 := some " ", classH1 := some "Real title",
                    anyH1 := some "Real title" } = "" ∧
    ("" : String) ≠ "Real title" := by
  constructor
  · rfl
  · decide

/-- C3 amended: the three selector strategies are tried most-specific
first and the first strategy to locate an element wins, its stripped text
being used even when that text is empty; only when all three lookups fail
is the sentinel `"(could not extract title)"` substituted, so the title is
always a string (never null), though possibly empty. -/
theorem c3_amended_title_ladder (sel : TitleSelectors) :
    (∀ t, sel.headerH1 = some t → extract_title sel = pyStrip t) ∧
    (sel.headerH1 = none → ∀ t, sel.classH1 = some t → extract_title sel = pyStrip t) ∧
    (sel.headerH1 = none → sel.classH1 = none → ∀ t, sel.anyH1 = some t →
      extract_title sel = pyStrip t) ∧
    (sel.headerH1 = none → sel.classH1 = none → sel.anyH1 = none →
      extract_title sel = "(could not extract title)") := by
  obtain ⟨s1, s2, s3⟩ := sel
  refine ⟨?_, ?_, ?_, ?_⟩ <;> intros <;> subst_vars <;> rfl

theorem c3_amended_title_ladder_witness :
    extract_title { headerH1 := none, classH1 := none,
                    anyH1 := some "  Only heading  " } = pyStrip "  Only heading  " :=
  (c3_amended_title_ladder _).2.2.1 rfl rfl _ rfl

/-! ## Theorems: image download failure isolation (claim C7) -/

/-- C7 counterexample: `download_image` is not propagation-free on every
I/O failure — `ensure_image_dir()` (`os.makedirs`) runs before the `try`
block, so a directory-creation I/O error propagates out of the function
instead of yielding `None`. -/
theorem c7_counterexample :
    download_image (.error "PermissionError: cannot create images")
      (.success (some "image/png")) 0 =
      .error "PermissionError: cannot create images" := rfl

/-- C7 amended: any failure of the download attempt inside the guarded
block (network error, non-2xx status, streaming/file I/O error) makes
`download_image` return `None` rather than propagate, but a failure of
the image-directory creation — which runs before the `try` — propagates
out of `download_image`; in either failure mode the enclosing article
extraction still returns a complete `ArticleRecord` (title and content
unaffected) with `image_path = none`, its own handler catching the
propagated error; a successful download returns the path of the
deterministic filename keyed by the article index, with extension
inferred from the content type (`png` and `webp` recognized explicitly,
anything else `jpg`). -/
theorem c7_amended_image_isolation (p : ArticlePage) (url : String) (idx : Nat)
    (msg : String) (ct : Option String) (hnav : p.nav = .ok ())
    (hfail : p.download = .fail msg ∨ p.mkdir = .error msg) :
    download_image (.ok ()) (.fail msg) idx = .ok none ∧
    download_image (.error msg) p.download idx = .error msg ∧
    (∃ rec, scrape_single_article p url idx = .ok rec ∧ rec.image_path = none ∧
      rec.title = extract_title p.titleSel ∧ rec.content = extract_content p) ∧
    download_image (.ok ()) (.success ct) idx =
      .ok (some (IMAGE_DIR ++ "/article_" ++ toString (idx + 1) ++ "_cover." ++
        (if hasSubstr "png" (ct.getD "").data then "png"
         else if hasSubstr "webp" (ct.getD "").data then "webp" else "jpg"))) := by
  obtain ⟨nav, tsel, pp, pf, img, mk, dl⟩ := p
  replace hnav : nav = Except.ok () := hnav
  subst hnav
  refine ⟨rfl, rfl, ⟨_, rfl, ?_, rfl, rfl⟩, rfl⟩
  rcases img with _ | u
  · rfl
  · rcases u with _ | s
    · rfl
    · rcases hfail with hdl | hmk
      · replace hdl : dl = DLOutcome.fail msg := hdl
        subst hdl
        by_cases hs : s = "" <;>
          rcases mk with e | u <;> simp [extract_image, hs, download_image]
      · replace hmk : mk = Except.error msg := hmk
        subst hmk
        by_cases hs : s = "" <;> simp [extract_image, hs, download_image]

theorem c7_amended_image_isolation_witness :
    download_image (.ok ()) (.fail "ConnectionError") 0 = .ok none ∧
    download_image (.error "PermissionError")
      (DLOutcome.success (some "image/webp")) 0 = .error "PermissionError" ∧
    (∃ rec, scrape_single_article
      { nav := .ok (),
        titleSel := { headerH1 := some "Titular", classH1 := none, anyH1 := none },
        paraPrimary := some ["Cuerpo."], paraFallback := some [],
        imgSrc := some (some "https://img.example/cover"),
        mkdir := .error "PermissionError",
        download := .success (some "image/webp") }
      "https://elpais.com/opinion/a.html" 0 = .ok rec ∧ rec.image_path = none) := by
  have h := c7_amended_image_isolation
    { nav := .ok (),
      titleSel := { headerH1 := some "Titular", classH1 := none, anyH1 := none },
      paraPrimary := some ["Cuerpo."], paraFallback := some [],
      imgSrc := some (some "https://img.example/cover"),
      mkdir := .error "PermissionError",
      download := .success (some "image/webp") }
    "https://elpais.com/opinion/a.html" 0 "PermissionError" (some "image/webp")
    rfl (Or.inr rfl)
  obtain ⟨rec, hrec, hip, _, _⟩ := h.2.2.1
  exact ⟨c7_amended_image_isolation
    { nav := .ok (),
      titleSel := { headerH1 := none, classH1 := none, anyH1 := none },
      paraPrimary := none, paraFallback := none, imgSrc := none,
      mkdir := .ok (), download := .fail "ConnectionError" }
    "" 0 "ConnectionError" none rfl (Or.inl rfl) |>.1,
    h.2.1, rec, hrec, hip⟩

/-! ## Theorems: session lifecycle (claim C5) -/

/-- C5: whenever the driver was successfully created,
`run_single_browser` quits it exactly once on every exit path (normal
completion, a scraping exception, or a failing status notification), the
status notification is attempted exactly once, and a failure of that
notification never changes the returned status or reason. -/
theorem c5_session_close (cfg : BrowserConfig) (env : RunEnv) (h : env.create = .ok ()) :
    (run_single_browser cfg env).2.quitCalls = 1 ∧
    (run_single_browser cfg env).2.notifyAttempts = 1 ∧
    (run_single_browser cfg { env with notifyFails := true }).1 =
      (run_single_browser cfg { env with notifyFails := false }).1 := by
  obtain ⟨create, scr, key, tr, nf⟩ := env
  replace h : create = Except.ok () := h
  subst h
  cases nf <;> exact ⟨rfl, rfl, rfl⟩

theorem c5_session_close_witness :
    (run_single_browser (BROWSERS.getD 0 (BrowserConfig.mk "" false emptyOpts))
      { create := .ok ()
        scrape := { links := { navigate := .error "timeout", htmlLang := .ok none,
                               primary := none, fallBack := none },
                    page := fun _ _ =>
                      { nav := .ok (),
                        titleSel := { headerH1 := none, classH1 := none, anyH1 := none },
                        paraPrimary := none, paraFallback := none,
                        imgSrc := none, mkdir := .ok (), download := .fail "" } }
        apiKey := "", trans := fun _ => .failure "net", notifyFails := true }).2.quitCalls
      = 1 :=
  (c5_session_close _ _ rfl).1

/-! ## Theorems: pipeline gating (claim C6) -/

/-- C6: with the driver created and scraping returning normally,
translation and analysis run iff at least one article was extracted; a
non-empty extraction yields status `passed` with the article-count
reason, an empty one yields status `failed` with its fixed reason and the
translation/analysis steps skipped. -/
theorem c6_pipeline_gating (cfg : BrowserConfig) (env : RunEnv) (arts : List ArticleRecord)
    (hc : env.create = .ok ()) (hs : scrape_articles env.scrape 5 = .ok arts) :
    (arts ≠ [] →
      (run_single_browser cfg env).1.status = "passed" ∧
      (run_single_browser cfg env).1.reason =
        "Scraped " ++ toString arts.length ++ " articles successfully" ∧
      (run_single_browser cfg env).2.translated = true ∧
      (run_single_browser cfg env).2.analyzed = true) ∧
    (arts = [] →
      (run_single_browser cfg env).1.status = "failed" ∧
      (run_single_browser cfg env).1.reason = "Could not scrape any articles" ∧
      (run_single_browser cfg env).2.translated = false ∧
      (run_single_browser cfg env).2.analyzed = false) := by
  obtain ⟨create, scr, key, tr, nf⟩ := env
  replace hc : create = Except.ok () := hc
  replace hs : scrape_articles scr 5 = .ok arts := hs
  subst hc
  constructor
  · intro hne
    have hemp : arts.isEmpty = false := by
      cases arts with
      | nil => exact absurd rfl hne
      | cons a l => rfl
    cases nf <;> simp [run_single_browser, hs, hemp]
  · intro heq
    subst heq
    cases nf <;> simp [run_single_browser, hs]

theorem c6_pipeline_gating_witness :
    (run_single_browser (BROWSERS.getD 1 (BrowserConfig.mk "" false emptyOpts))
      { create := .ok ()
        scrape := { links := { navigate := .ok (), htmlLang := .ok (some "es"),
                               primary := some [ElemRead.found
                                 (some "https://elpais.com/opinion/a.html")],
                               fallBack := some [] },
                    page := fun _ _ =>
                      { nav := .ok (),
                        titleSel := { headerH1 := some "Titular", classH1 := none,
                                      anyH1 := none },
                        paraPrimary := some ["Cuerpo."], paraFallback := some [],
                        imgSrc := none, mkdir := .ok (), download := .fail "" } }
        apiKey := "", trans := fun _ => .failure "net", notifyFails := false }).1.status
      = "passed" := by
  have h := c6_pipeline_gating (BROWSERS.getD 1 (BrowserConfig.mk "" false emptyOpts))
    { create := .ok ()
      scrape := { links := { navigate := .ok (), htmlLang := .ok (some "es"),
                             primary := some [ElemRead.found
                               (some "https://elpais.com/opinion/a.html")],
                             fallBack := some [] },
                  page := fun _ _ =>
                    { nav := .ok (),
                      titleSel := { headerH1 := some "Titular", classH1 := none,
                                    anyH1 := none },
                      paraPrimary := some ["Cuerpo."], paraFallback := some [],
                      imgSrc := none, mkdir := .ok (), download := .fail "" } }
      apiKey := "", trans := fun _ => .failure "net", notifyFails := false }
    [{ url := "https://elpais.com/opinion/a.html", title := "Titular",
       content := "Cuerpo.", image_path := none }] rfl (by rfl)
  exact (h.1 (by simp)).1

/-! ## Theorems: link collection (claim C4) -/

/-- The shared collection loop only ever appends fresh non-empty links to
the already-collected list: the input accumulator is a prefix of the
output, and a duplicate-free accumulator stays duplicate-free. -/
theorem linkLoop_extends_nodup (num : Nat) (stop : Bool) :
    ∀ (items : List ElemRead) (acc : List String), acc.Nodup →
      (∃ extra, linkLoop num stop items acc = acc ++ extra) ∧
      (linkLoop num stop items acc).Nodup := by
  intro items
  induction items with
  | nil =>
    intro acc hnd
    exact ⟨⟨[], by simp [linkLoop]⟩, by simpa [linkLoop] using hnd⟩
  | cons it rest ih =>
    intro acc hnd
    cases it with
    | readErr =>
      cases hstop : stop
      · simpa [linkLoop, hstop] using ih acc hnd
      · exact ⟨⟨[], by simp [linkLoop, hstop]⟩, by simpa [linkLoop, hstop] using hnd⟩
    | found h? =>
      cases h? with
      | none => simpa [linkLoop] using ih acc hnd
      | some hr =>
        by_cases hg : hr ≠ "" ∧ hr ∉ acc
        · have hnd' : (acc ++ [hr]).Nodup := by
            simp [List.nodup_append, hnd, hg.2]
          by_cases hlen : num ≤ acc.length + 1
          · refine ⟨⟨[hr], by simp [linkLoop, hg, hlen]⟩, ?_⟩
            simpa [linkLoop, hg, hlen] using hnd'
          · obtain ⟨⟨extra, hex⟩, hnd2⟩ := ih (acc ++ [hr]) hnd'
            refine ⟨⟨hr :: extra, ?_⟩, ?_⟩
            · simp [linkLoop, hg, hlen, hex]
            · simpa [linkLoop, hg, hlen] using hnd2
        · simpa [linkLoop, hg] using ih acc hnd

theorem primaryLinks_nodup (env : LinksEnv) (num : Nat) : (primaryLinks env num).Nodup := by
  unfold primaryLinks
  cases env.primary with
  | none => exact List.nodup_nil
  | some items => exact (linkLoop_extends_nodup num false items [] List.nodup_nil).2

theorem combinedLinks_spec (env : LinksEnv) (num : Nat) :
    (∃ extra, combinedLinks env num = primaryLinks env num ++ extra) ∧
    (combinedLinks env num).Nodup := by
  unfold combinedLinks
  by_cases hlt : (primaryLinks env num).length < num
  · rw [if_pos hlt]
    cases env.fallBack with
    | none => exact ⟨⟨[], by simp⟩, primaryLinks_nodup env num⟩
    | some items =>
      exact linkLoop_extends_nodup num true items (primaryLinks env num)
        (primaryLinks_nodup env num)
  · rw [if_neg hlt]
    exact ⟨⟨[], by simp⟩, primaryLinks_nodup env num⟩

/-- C4 counterexample: `get_article_links` is not exception-free — its
language-check step looks up the `<html>` element outside any `try`, so a
driver failure there propagates out of the function (the enclosing
target runner's generic handler is what eventually catches it). -/
theorem c4_counterexample :
    get_article_links
      { navigate := .ok (), htmlLang := .error "NoSuchElementException: html",
        primary := some [ElemRead.found (some "https://elpais.com/opinion/a.html")],
        fallBack := some [] } 5 =
      .error "NoSuchElementException: html" := rfl

/-- C4 amended: provided navigation and the language-check element lookup
succeed, `get_article_links` returns normally with a duplicate-free
ordered sequence of at most `num` links, in which the links found by the
fallback selector are appended after the primary-selector links
(preserving the already-found order and skipping duplicates); the empty
sequence is a valid outcome. -/
theorem c4_amended_links_contract (env : LinksEnv) (num : Nat) (lang : Option String)
    (hnav : env.navigate = .ok ()) (hlang : env.htmlLang = .ok lang) :
    ∃ l, get_article_links env num = .ok l ∧
      l.length ≤ num ∧ l.Nodup ∧
      (∃ extra, combinedLinks env num = primaryLinks env num ++ extra) ∧
      l = (combinedLinks env num).take num := by
  obtain ⟨hext, hnd⟩ := combinedLinks_spec env num
  refine ⟨(combinedLinks env num).take num, ?_, ?_, ?_, hext, rfl⟩
  · unfold get_article_links
    rw [hnav, hlang]
    rfl
  · simp [List.length_take]
  · exact hnd.sublist (List.take_sublist num _)

/-- Environment used by the C4 witness: the primary scan yields one link,
a duplicate of it, an element read error and an element with no `href`;
the fallback scan contributes one further link. -/
def c4Env : LinksEnv :=
  { navigate := .ok ()
    htmlLang := .ok (some "es-ES")
    primary := some [ElemRead.found (some "https://elpais.com/opinion/a.html"),
                     ElemRead.found (some "https://elpais.com/opinion/a.html"),
                     ElemRead.readErr, ElemRead.found none]
    fallBack := some [ElemRead.found (some "https://elpais.com/opinion/b.html")] }

theorem c4_amended_links_contract_witness :
    ∃ l, get_article_links c4Env 5 = .ok l ∧
      l.length ≤ 5 ∧ l.Nodup ∧
      (∃ extra, combinedLinks c4Env 5 = primaryLinks c4Env 5 ++ extra) ∧
      l = (combinedLinks c4Env 5).take 5 :=
  c4_amended_links_contract c4Env 5 (some "es-ES") rfl rfl

end ElPais
